import Mathlib

/-!
Shallow embedding of `src/main.cpp` (OrderStrategy): a discount-rule
hierarchy and the cumulative price calculator. C++ `double` values are
modelled as `ℚ`; nullable `DiscountType*` pointers are `Option DiscountType`;
the `std::vector<OrderLine>` is a `List OrderLine`. The four concrete
discount classes become the constructors of one inductive type, and the
virtual `DiscountPercent` becomes a function matching on that type.
-/

/-- The four concrete subclasses of `DiscountType` (main.cpp lines 12-62).
Each stores its constructor arguments: `FixedDiscount(discount)`,
`VolumeDiscount(quantity, discount)`, `PriceDiscount(price, discount)`,
`AmountDiscount(price, discount)`. -/
inductive DiscountType where
  | FixedDiscount (discount : ℚ)
  | VolumeDiscount (min_quantity discount : ℚ)
  | PriceDiscount (min_total_price discount : ℚ)
  | AmountDiscount (min_total_price discount : ℚ)
deriving DecidableEq

/-- `DiscountPercent(price, quantity)`: the virtual dispatch of main.cpp.
`FixedDiscount` ignores both inputs; `VolumeDiscount` compares `quantity >= min_quantity`;
`PriceDiscount` compares `price * quantity >= min_total_price`;
`AmountDiscount` compares `price >= min_total_price`. -/
def DiscountType.DiscountPercent : DiscountType → ℚ → ℚ → ℚ
  | .FixedDiscount d, _, _ => d
  | .VolumeDiscount mq d, _, quantity => if quantity ≥ mq then d else 0
  | .PriceDiscount mp d, price, quantity => if price * quantity ≥ mp then d else 0
  | .AmountDiscount mp d, price, _ => if price ≥ mp then d else 0

/-- The discount fraction stored inside a rule (the `discount` field each
subclass carries). -/
def DiscountType.fraction : DiscountType → ℚ
  | .FixedDiscount d => d
  | .VolumeDiscount _ d => d
  | .PriceDiscount _ d => d
  | .AmountDiscount _ d => d

/-- `Customer` record (main.cpp lines 64-67); the `DiscountType*` member may be null. -/
structure Customer where
  name : String
  discount : Option DiscountType
deriving DecidableEq

/-- `ArticleUnit` enum (main.cpp line 69). -/
inductive ArticleUnit where
  | PIECE | KG | METER | SQMETER | CMETER | LITER
deriving DecidableEq

/-- `Article` record (main.cpp lines 71-77). -/
structure Article where
  id : Int
  name : String
  price : ℚ
  unit : ArticleUnit
  discount : Option DiscountType
deriving DecidableEq

/-- `OrderLine` record (main.cpp lines 79-83); `quantity` is a C++ `int`. -/
structure OrderLine where
  product : Article
  quantity : Int
  discount : Option DiscountType
deriving DecidableEq

/-- `Order` record (main.cpp lines 85-90); both `buyer` and `discount` are
nullable pointers. -/
structure Order where
  id : Int
  buyer : Option Customer
  lines : List OrderLine
  discount : Option DiscountType
deriving DecidableEq

/-- The buyer discount used in step (d) of the loop: the C++ condition
`o.buyer && o.buyer->discount` yields a rule only when the buyer pointer is
non-null and the buyer's discount pointer is non-null. -/
def buyerDiscount : Option Customer → Option DiscountType
  | some b => b.discount
  | none => none

/-- The body of the loop in `CumulativePriceCalculator::CalculatePrice`
(main.cpp lines 100-115): `line_price = product.price * quantity`, then the
three conditional multiplications by `(1 - DiscountPercent(product.price, quantity))`
for the item rule, the line rule and the buyer rule, in that order. -/
def lineAmount (buyer : Option Customer) (ol : OrderLine) : ℚ :=
  let line_price := ol.product.price * (ol.quantity : ℚ)
  let line_price :=
    match ol.product.discount with
    | some d => line_price * (1 - d.DiscountPercent ol.product.price (ol.quantity : ℚ))
    | none => line_price
  let line_price :=
    match ol.discount with
    | some d => line_price * (1 - d.DiscountPercent ol.product.price (ol.quantity : ℚ))
    | none => line_price
  match buyerDiscount buyer with
  | some d => line_price * (1 - d.DiscountPercent ol.product.price (ol.quantity : ℚ))
  | none => line_price

/-- The accumulated value of `price` after the loop over `o.lines`
(main.cpp lines 99-116), starting from `price = 0`. -/
def lineSum (o : Order) : ℚ :=
  o.lines.foldl (fun price ol => price + lineAmount o.buyer ol) 0

/-- `CumulativePriceCalculator::CalculatePrice` (main.cpp lines 98-123):
sum the per-line amounts, then, if the order carries a discount, multiply by
`(1 - DiscountPercent(price, 0))`. -/
def CumulativePriceCalculator.CalculatePrice (o : Order) : ℚ :=
  let price := lineSum o
  match o.discount with
  | some d => price * (1 - d.DiscountPercent price 0)
  | none => price

/-- `AreEqual(d1, d2, diff)` (main.cpp lines 8-10): approximate equality
within the tolerance `diff` (default `0.001` at the call sites). -/
def AreEqual (d1 d2 diff : ℚ) : Prop := |d1 - d2| ≤ diff

instance (d1 d2 diff : ℚ) : Decidable (AreEqual d1 d2 diff) := by
  unfold AreEqual; infer_instance

/-- The discount fraction an optional rule contributes: an absent rule
contributes `0` (so its factor `1 - 0` is `1`, i.e. no discount). -/
def optPercent (d : Option DiscountType) (price quantity : ℚ) : ℚ :=
  match d with
  | some rule => rule.DiscountPercent price quantity
  | none => 0

/-- The rule objects constructed in `main` (main.cpp lines 127-130). -/
def d1 : DiscountType := .FixedDiscount 0.1
def d2 : DiscountType := .VolumeDiscount 10 0.15
def d3 : DiscountType := .PriceDiscount 100 0.05
def d4 : DiscountType := .AmountDiscount 100 0.05

/-- Customers from `main` (main.cpp lines 132-134). -/
def c1 : Customer := ⟨"default", none⟩
def c2 : Customer := ⟨"john", some d1⟩
def c3 : Customer := ⟨"joane", some d3⟩

/-- Articles from `main` (main.cpp lines 136-138). -/
def a1 : Article := ⟨1, "pen", 5, .PIECE, none⟩
def a2 : Article := ⟨2, "expensive pen", 15, .PIECE, some d1⟩
def a3 : Article := ⟨3, "scissors", 10, .PIECE, some d2⟩

/-- Orders `o1`, `o2`, `o8`, `o9` from `main` (main.cpp lines 142-166). -/
def o1 : Order := ⟨101, some c1, [⟨a1, 1, none⟩], none⟩
def o2 : Order := ⟨102, some c2, [⟨a1, 1, none⟩], none⟩
def o8 : Order := ⟨108, some c3, [⟨a2, 20, some d1⟩], none⟩
def o9 : Order := ⟨109, some c3, [⟨a2, 20, some d1⟩], some d4⟩

/-! ### Helper lemmas -/

/-- Folding `price + lineAmount` over a list from accumulator `a` equals
`a` plus the sum of the per-line amounts. -/
theorem foldl_add_lineAmount (buyer : Option Customer) (l : List OrderLine) (a : ℚ) :
    l.foldl (fun price ol => price + lineAmount buyer ol) a
      = a + (l.map (lineAmount buyer)).sum := by
  induction l generalizing a with
  | nil => simp
  | cons x xs ih => simp [ih, add_assoc]

/-- The loop total is the sum of the per-line amounts. -/
theorem lineSum_eq_map_sum (o : Order) :
    lineSum o = (o.lines.map (lineAmount o.buyer)).sum := by
  simpa using foldl_add_lineAmount o.buyer o.lines 0

/-- Closed form of the loop body: the three optional discounts become three
multiplicative factors, each evaluated on the original price and quantity. -/
theorem lineAmount_closed_form (buyer : Option Customer) (ol : OrderLine) :
    lineAmount buyer ol =
      ol.product.price * (ol.quantity : ℚ)
        * (1 - optPercent ol.product.discount ol.product.price (ol.quantity : ℚ))
        * (1 - optPercent ol.discount ol.product.price (ol.quantity : ℚ))
        * (1 - optPercent (buyerDiscount buyer) ol.product.price (ol.quantity : ℚ)) := by
  unfold lineAmount optPercent
  cases ol.product.discount <;> cases ol.discount <;> cases buyerDiscount buyer <;>
    simp

/-- A rule's result is always either its stored fraction or `0`. -/
theorem DiscountPercent_cases (d : DiscountType) (price quantity : ℚ) :
    d.DiscountPercent price quantity = d.fraction
      ∨ d.DiscountPercent price quantity = 0 := by
  cases d with
  | FixedDiscount f => exact Or.inl rfl
  | VolumeDiscount mq f =>
      simp only [DiscountType.DiscountPercent, DiscountType.fraction]
      split <;> [exact Or.inl rfl; exact Or.inr rfl]
  | PriceDiscount mp f =>
      simp only [DiscountType.DiscountPercent, DiscountType.fraction]
      split <;> [exact Or.inl rfl; exact Or.inr rfl]
  | AmountDiscount mp f =>
      simp only [DiscountType.DiscountPercent, DiscountType.fraction]
      split <;> [exact Or.inl rfl; exact Or.inr rfl]

/-- A rule whose stored fraction lies in `[0,1]`. -/
def fractionInRange (d : DiscountType) : Prop :=
  0 ≤ d.fraction ∧ d.fraction ≤ 1

/-- An optional rule is well-formed when, if present, its fraction lies in `[0,1]`. -/
def optOk : Option DiscountType → Prop
  | some d => fractionInRange d
  | none => True

instance (d : DiscountType) : Decidable (fractionInRange d) := by
  unfold fractionInRange; infer_instance

instance (d : Option DiscountType) : Decidable (optOk d) := by
  cases d <;> unfold optOk <;> infer_instance

/-- A well-formed optional rule contributes a factor `1 - f` lying in `[0,1]`. -/
theorem optFactor_mem (d : Option DiscountType) (p q : ℚ) (h : optOk d) :
    0 ≤ 1 - optPercent d p q ∧ 1 - optPercent d p q ≤ 1 := by
  cases d with
  | none => simp [optPercent]
  | some r =>
      rcases DiscountPercent_cases r p q with hc | hc <;>
        simp only [optPercent, hc] <;>
        [ exact ⟨by linarith [h.2], by linarith [h.1]⟩ ; exact ⟨by norm_num, by norm_num⟩ ]

/-- A line with non-negative price and quantity and well-formed rules
contributes a non-negative amount. -/
theorem lineAmount_nonneg (buyer : Option Customer) (ol : OrderLine)
    (hp : 0 ≤ ol.product.price) (hq : 0 ≤ ol.quantity)
    (hi : optOk ol.product.discount) (hl : optOk ol.discount)
    (hb : optOk (buyerDiscount buyer)) :
    0 ≤ lineAmount buyer ol := by
  rw [lineAmount_closed_form]
  have hq2 : (0 : ℚ) ≤ (ol.quantity : ℚ) := by exact_mod_cast hq
  exact mul_nonneg
    (mul_nonneg
      (mul_nonneg (mul_nonneg hp hq2)
        (optFactor_mem ol.product.discount _ _ hi).1)
      (optFactor_mem ol.discount _ _ hl).1)
    (optFactor_mem (buyerDiscount buyer) _ _ hb).1

/-! ### Claim theorems -/

/-- C1: every line contributes its original `price * quantity` multiplied by
one `(1 - f)` factor per attached discount (item, line, buyer, in that
order), each fraction evaluated on the original `(price, quantity)` inputs;
in particular a line with an item-level `FixedDiscount f1` and a buyer-level
`FixedDiscount f2` totals `p * q * (1 - f1) * (1 - f2)`. -/
theorem line_discounts_stack_multiplicatively :
    (∀ (buyer : Option Customer) (ol : OrderLine),
      lineAmount buyer ol =
        ol.product.price * (ol.quantity : ℚ)
          * (1 - optPercent ol.product.discount ol.product.price (ol.quantity : ℚ))
          * (1 - optPercent ol.discount ol.product.price (ol.quantity : ℚ))
          * (1 - optPercent (buyerDiscount buyer) ol.product.price (ol.quantity : ℚ)))
    ∧
    (∀ (oid aid : Int) (an bn : String) (u : ArticleUnit) (p : ℚ) (q : Int) (f1 f2 : ℚ),
      CumulativePriceCalculator.CalculatePrice
        ⟨oid, some ⟨bn, some (.FixedDiscount f2)⟩,
          [⟨⟨aid, an, p, u, some (.FixedDiscount f1)⟩, q, none⟩], none⟩
        = p * (q : ℚ) * (1 - f1) * (1 - f2)) := by
  constructor
  · exact lineAmount_closed_form
  · intro oid aid an bn u p q f1 f2
    simp [CumulativePriceCalculator.CalculatePrice, lineSum, lineAmount, buyerDiscount,
      DiscountType.DiscountPercent]

/-- C2: an order-level rule is applied exactly once, to the
post-line-discount sum `S`, evaluated at `(S, 0)`; hence an order-level
`VolumeDiscount` with positive threshold never changes the total. -/
theorem order_rule_once_on_sum :
    (∀ (o : Order) (r : DiscountType), o.discount = some r →
      CumulativePriceCalculator.CalculatePrice o
        = lineSum o * (1 - r.DiscountPercent (lineSum o) 0))
    ∧
    (∀ (o : Order) (mq f : ℚ), o.discount = some (.VolumeDiscount mq f) → 0 < mq →
      CumulativePriceCalculator.CalculatePrice o = lineSum o) := by
  constructor
  · intro o r h
    simp [CumulativePriceCalculator.CalculatePrice, h]
  · intro o mq f h hmq
    have hq : ¬ ((0 : ℚ) ≥ mq) := not_le.mpr hmq
    simp [CumulativePriceCalculator.CalculatePrice, h, DiscountType.DiscountPercent, hq]

/-- C2 witness: concretely, the order-level `AmountDiscount` of `o9` is
applied to its line sum, and an order-level `VolumeDiscount 5 0.2` leaves
the total of a one-line order unchanged. -/
theorem order_rule_once_on_sum_witness :
    CumulativePriceCalculator.CalculatePrice o9
      = lineSum o9 * (1 - d4.DiscountPercent (lineSum o9) 0)
    ∧ CumulativePriceCalculator.CalculatePrice
        ⟨201, none, [⟨a1, 2, none⟩], some (.VolumeDiscount 5 0.2)⟩
      = lineSum ⟨201, none, [⟨a1, 2, none⟩], some (.VolumeDiscount 5 0.2)⟩ :=
  ⟨order_rule_once_on_sum.1 o9 d4 rfl,
   order_rule_once_on_sum.2 ⟨201, none, [⟨a1, 2, none⟩], some (.VolumeDiscount 5 0.2)⟩
     5 0.2 rfl (by norm_num)⟩

/-- C3: the concrete order `o9` (price 15, qty 20, item `FixedDiscount 0.1`,
line `FixedDiscount 0.1`, buyer `PriceDiscount 100 0.05`, order
`AmountDiscount 100 0.05`) totals 219.3075 within tolerance 0.001, and the
same order without the order rule (`o8`) totals 230.85. -/
theorem scenario_totals :
    AreEqual (CumulativePriceCalculator.CalculatePrice o9) 219.3075 0.001
    ∧ AreEqual (CumulativePriceCalculator.CalculatePrice o8) 230.85 0.001 := by
  constructor <;>
    norm_num [AreEqual, CumulativePriceCalculator.CalculatePrice, lineSum, lineAmount,
      buyerDiscount, DiscountType.DiscountPercent, o8, o9, a2, c3, d1, d3, d4]

/-- C4: with no discount attached at any level, the total is exactly the sum
of `unitPrice * quantity` over the lines. -/
theorem no_discount_total (o : Order)
    (hb : buyerDiscount o.buyer = none) (ho : o.discount = none)
    (hl : ∀ ol ∈ o.lines, ol.product.discount = none ∧ ol.discount = none) :
    CumulativePriceCalculator.CalculatePrice o
      = (o.lines.map (fun ol => ol.product.price * (ol.quantity : ℚ))).sum := by
  simp only [CumulativePriceCalculator.CalculatePrice, ho]
  rw [lineSum_eq_map_sum]
  apply congrArg List.sum
  apply List.map_congr_left
  intro ol hol
  have h := hl ol hol
  simp [lineAmount, hb, h.1, h.2]

/-- C4 witness: order `o1` (one pen, price 5, qty 1, no discounts) totals the
plain line sum. -/
theorem no_discount_total_witness :
    CumulativePriceCalculator.CalculatePrice o1
      = (o1.lines.map (fun ol => ol.product.price * (ol.quantity : ℚ))).sum :=
  no_discount_total o1 rfl rfl (by intro ol hol; simp [o1] at hol; simp [hol, a1])

/-- C5: `VolumeDiscount mq f` returns `f` when `quantity ≥ mq` (equality at
the threshold included) and `0` when `quantity < mq`. -/
theorem volume_rule_threshold (p q mq f : ℚ) :
    (mq ≤ q → (DiscountType.VolumeDiscount mq f).DiscountPercent p q = f)
    ∧ (q < mq → (DiscountType.VolumeDiscount mq f).DiscountPercent p q = 0) := by
  constructor
  · intro h
    simp [DiscountType.DiscountPercent, ge_iff_le, h]
  · intro h
    simp [DiscountType.DiscountPercent, ge_iff_le, not_le.mpr h]

/-- C5 witness: `VolumeDiscount 10 0.15` yields 0.15 at quantity 15 (and at
the exact threshold 10) and 0 at quantity 5. -/
theorem volume_rule_threshold_witness :
    (DiscountType.VolumeDiscount 10 0.15).DiscountPercent 10 15 = 0.15
    ∧ (DiscountType.VolumeDiscount 10 0.15).DiscountPercent 10 10 = 0.15
    ∧ (DiscountType.VolumeDiscount 10 0.15).DiscountPercent 10 5 = 0 :=
  ⟨(volume_rule_threshold 10 15 10 0.15).1 (by norm_num),
   (volume_rule_threshold 10 10 10 0.15).1 (by norm_num),
   (volume_rule_threshold 10 5 10 0.15).2 (by norm_num)⟩

/-- An order with an empty line list but a non-trivial order-level rule,
used to exercise the empty-sequence path. -/
def emptyOrder : Order := ⟨300, none, [], some d4⟩

/-- C6: there are no error paths — an absent discount contributes the
neutral factor `1 - 0 = 1`, an empty line sequence yields a line sum of `0`
(and a returned total of `0`), and the calculator returns a total for every
order whatsoever. -/
theorem no_error_paths :
    (∀ (price quantity : ℚ), 1 - optPercent none price quantity = 1)
    ∧ (∀ (o : Order), o.lines = [] → lineSum o = 0)
    ∧ (∀ (o : Order), o.lines = [] → CumulativePriceCalculator.CalculatePrice o = 0)
    ∧ (∀ (o : Order), ∃ t : ℚ, CumulativePriceCalculator.CalculatePrice o = t) := by
  refine ⟨fun price quantity => by simp [optPercent], fun o h => by simp [lineSum, h], ?_, ?_⟩
  · intro o h
    have hs : lineSum o = 0 := by simp [lineSum, h]
    unfold CumulativePriceCalculator.CalculatePrice
    rw [hs]
    cases o.discount <;> simp
  · exact fun o => ⟨_, rfl⟩

/-- C6 witness: on the concrete empty-lined order (which still carries an
order-level rule and no buyer) the neutral factor, the zero line sum and the
zero total all hold. -/
theorem no_error_paths_witness :
    (1 - optPercent none 5 1 = 1)
    ∧ lineSum emptyOrder = 0
    ∧ CumulativePriceCalculator.CalculatePrice emptyOrder = 0 :=
  ⟨no_error_paths.1 5 1, no_error_paths.2.1 emptyOrder rfl, no_error_paths.2.2.1 emptyOrder rfl⟩

/-- C7: the calculator is deterministic and pure — its result depends only
on the order value, so equal inputs give equal totals. -/
theorem calculate_price_deterministic (oa ob : Order) (h : oa = ob) :
    CumulativePriceCalculator.CalculatePrice oa
      = CumulativePriceCalculator.CalculatePrice ob := by
  rw [h]

/-- C7 witness: two evaluations on the same order `o1` agree. -/
theorem calculate_price_deterministic_witness :
    CumulativePriceCalculator.CalculatePrice o1
      = CumulativePriceCalculator.CalculatePrice o1 :=
  calculate_price_deterministic o1 o1 rfl

/-- C8: every rule variant is total on all numeric inputs, negative ones
included: `DiscountPercent` always returns a value, namely either the stored
fraction or `0`. -/
theorem evaluate_total_fraction (d : DiscountType) (price quantity : ℚ) :
    d.DiscountPercent price quantity = d.fraction
      ∨ d.DiscountPercent price quantity = 0 :=
  DiscountPercent_cases d price quantity

/-- C9: when every price and quantity is non-negative and every attached
rule carries a fraction in `[0,1]`, the total is non-negative. -/
theorem calculate_price_nonneg (o : Order)
    (hl : ∀ ol ∈ o.lines, 0 ≤ ol.product.price ∧ 0 ≤ ol.quantity
        ∧ optOk ol.product.discount ∧ optOk ol.discount)
    (hb : optOk (buyerDiscount o.buyer)) (ho : optOk o.discount) :
    0 ≤ CumulativePriceCalculator.CalculatePrice o := by
  have hsum : 0 ≤ lineSum o := by
    rw [lineSum_eq_map_sum]
    apply List.sum_nonneg
    intro x hx
    simp only [List.mem_map] at hx
    obtain ⟨ol, hol, rfl⟩ := hx
    obtain ⟨h1, h2, h3, h4⟩ := hl ol hol
    exact lineAmount_nonneg o.buyer ol h1 h2 h3 h4 hb
  unfold CumulativePriceCalculator.CalculatePrice
  cases hd : o.discount with
  | none => exact hsum
  | some r =>
      rw [hd] at ho
      exact mul_nonneg hsum (optFactor_mem (some r) (lineSum o) 0 ho).1

/-- C9 witness: the fully loaded order `o9` (all four rule variants
attached, all fractions in `[0,1]`, non-negative price and quantity) has a
non-negative total. -/
theorem calculate_price_nonneg_witness :
    0 ≤ CumulativePriceCalculator.CalculatePrice o9 :=
  calculate_price_nonneg o9
    (by
      intro ol hol
      simp [o9] at hol
      simp [hol, a2, d1, optOk, fractionInRange, DiscountType.fraction]
      norm_num)
    (by simp [o9, c3, buyerDiscount, d3, optOk, fractionInRange, DiscountType.fraction]; norm_num)
    (by simp [o9, d4, optOk, fractionInRange, DiscountType.fraction]; norm_num)

/-- C10: one `FixedDiscount f` value attached at both the item and the line
attachment points of the same line is applied once per attachment: the line
contributes `p * q * (1 - f) * (1 - f)`, not `p * q * (1 - f)`. -/
theorem shared_rule_per_attachment (oid aid : Int) (an : String) (u : ArticleUnit)
    (p : ℚ) (q : Int) (f : ℚ) :
    CumulativePriceCalculator.CalculatePrice
      ⟨oid, none, [⟨⟨aid, an, p, u, some (.FixedDiscount f)⟩, q, some (.FixedDiscount f)⟩],
        none⟩
      = p * (q : ℚ) * (1 - f) * (1 - f) := by
  simp [CumulativePriceCalculator.CalculatePrice, lineSum, lineAmount, buyerDiscount,
    DiscountType.DiscountPercent]
